import Mathlib

/-!
Shallow embedding of the coinpeek application state model (`src/app.rs`).

Modelling conventions:
* `f64` fields are modelled as `ℚ`.  The state model never performs
  arithmetic on them (only comparisons and `abs`), and every non-NaN `f64`
  embeds order-faithfully into `ℚ`.  The NaN-partiality of `partial_cmp`
  is modelled separately (`F64`, `fcmp`, claim C6).
* `DateTime<Utc>` is modelled as `Int` (Unix seconds).  chrono's
  `duration.num_hours() >= 1` on `now - t` is exactly `3600 ≤ now - t`
  (truncating division by 3600 is ≥ 1 iff the second count is ≥ 3600).
* Rust `String` is modelled as `List Char`; Rust's byte-lexicographic
  `String::cmp` coincides with code-point-lexicographic order on valid
  UTF-8, which is `lexLe` below.  `str::to_lowercase` on the ASCII ticker
  symbols coincides with `Char.toLower`.
* `Vec::sort_by` is a stable sort; a stable sort of a list by a total,
  transitive boolean "comes-before-or-tied" relation has a unique result,
  so it is embedded as `List.insertionSort` (structurally recursive, hence
  kernel-computable) with the relation `le a b := cmp a b ≠ Greater`.
* `u32`/`usize` counters are modelled as `Nat` (no claim exercises wrap).
* The `config`, `errors`, `show_*` booleans and the error-log methods are
  carried or omitted exactly as the claims need; none of the claims reads
  them.
-/

/-- Byte/code-point lexicographic `≤` on strings, as `Rust String::cmp`'s
`≠ Greater`. -/
def lexLe : List Char → List Char → Bool
  | [], _ => true
  | _ :: _, [] => false
  | c :: cs, d :: ds =>
    if c < d then true
    else if d < c then false
    else lexLe cs ds

/-- `PriceInfo` from `src/binance.rs`. -/
structure PriceInfo where
  symbol : List Char
  price : ℚ
  price_change_percent : ℚ
  volume : ℚ
  high_24h : ℚ
  low_24h : ℚ
  prev_close_price : ℚ
deriving DecidableEq

/-- `Candle` from `src/binance.rs`. -/
structure Candle where
  open_p : ℚ
  high : ℚ
  low : ℚ
  close : ℚ
  volume : ℚ
  timestamp : Nat
deriving DecidableEq

inductive SortDirection where
  | Ascending
  | Descending
deriving DecidableEq

inductive SortMode where
  | Symbol
  | Price
  | ChangePercent
  | Volume
deriving DecidableEq

structure SortConfig where
  mode : SortMode
  direction : SortDirection
deriving DecidableEq

inductive FilterType where
  | PriceRange (min max : Option ℚ)
  | ChangePercentRange (min max : Option ℚ)
  | VolumeRange (min max : Option ℚ)
  | SymbolSearch (q : List Char)
deriving DecidableEq

inductive AlertCondition where
  | PriceAbove (t : ℚ)
  | PriceBelow (t : ℚ)
  | PercentChangeAbove (t : ℚ)
  | PercentChangeBelow (t : ℚ)
  | VolumeSpike (t : ℚ)
deriving DecidableEq

structure PriceAlert where
  id : Nat
  symbol : List Char
  condition : AlertCondition
  enabled : Bool
  created_at : Int
  last_triggered : Option Int
  trigger_count : Nat
  message : Option (List Char)
deriving DecidableEq

inductive FilterPreset where
  | All
  | TopGainers
  | TopLosers
  | HighVolume
  | Volatile
  | Stable
deriving DecidableEq

/-- `FilterPreset::next`. -/
def FilterPreset.next : FilterPreset → FilterPreset
  | .All => .TopGainers
  | .TopGainers => .TopLosers
  | .TopLosers => .HighVolume
  | .HighVolume => .Volatile
  | .Volatile => .Stable
  | .Stable => .All

/-- `SortMode::next`. -/
def SortMode.next : SortMode → SortMode
  | .Symbol => .Price
  | .Price => .ChangePercent
  | .ChangePercent => .Volume
  | .Volume => .Symbol

/-- `SortConfig::default`. -/
def SortConfig.default : SortConfig := ⟨.Symbol, .Ascending⟩

/-- `SortConfig::next_mode`. -/
def SortConfig.next_mode (c : SortConfig) : SortConfig := { c with mode := c.mode.next }

/-- `SortConfig::toggle_direction`. -/
def SortConfig.toggle_direction (c : SortConfig) : SortConfig :=
  { c with direction := match c.direction with
      | .Ascending => .Descending
      | .Descending => .Ascending }

structure DataStatus where
  last_price_update : Option Int
  last_successful_sync : Option Int
  offline_mode : Bool
  consecutive_failures : Nat
deriving DecidableEq

/-- The data the `format!` templates of `check_alerts` interpolate; the
rendered `String` is modelled by this data (no claim reads the text). -/
inductive AlertMsg where
  | custom (m : List Char)
  | templated (c : AlertCondition) (symbol : List Char) (price change volume : ℚ)
deriving DecidableEq

/-- The `App` state from `src/app.rs` (fields no claim touches are
omitted: `config`, `errors`; the display-only booleans are kept). -/
structure App where
  all_price_infos : List PriceInfo
  price_infos : List PriceInfo
  selected_index : Nat
  sort_config : SortConfig
  active_filters : List FilterType
  active_preset : FilterPreset
  paused : Bool
  selected_candles : List Candle
  selected_symbol_candles : List Char
  data_status : DataStatus
  show_help : Bool
  search_mode : Bool
  search_query : List Char
  show_alert_management : Bool
  alerts : List PriceAlert
  recent_alerts : List (AlertMsg × Int)
deriving DecidableEq

/-- `App::new`. -/
def App.new : App where
  all_price_infos := []
  price_infos := []
  selected_index := 0
  sort_config := SortConfig.default
  active_filters := []
  active_preset := .All
  paused := false
  selected_candles := []
  selected_symbol_candles := []
  data_status := ⟨none, none, false, 0⟩
  show_help := false
  search_mode := false
  search_query := []
  show_alert_management := false
  alerts := []
  recent_alerts := []

/-- The boolean "`a` comes before or ties with `b`" relation of
`App::sort_price_infos`'s comparator for each mode/direction, i.e.
`cmp(a,b) ≠ Greater` for the `sort_by` closure of that arm. -/
def sortLEb (cfg : SortConfig) (a b : PriceInfo) : Bool :=
  match cfg.mode, cfg.direction with
  | .Symbol, .Ascending => lexLe a.symbol b.symbol
  | .Symbol, .Descending => lexLe b.symbol a.symbol
  | .Price, .Ascending => decide (a.price ≤ b.price)
  | .Price, .Descending => decide (b.price ≤ a.price)
  | .ChangePercent, .Ascending => decide (a.price_change_percent ≤ b.price_change_percent)
  | .ChangePercent, .Descending => decide (b.price_change_percent ≤ a.price_change_percent)
  | .Volume, .Ascending => decide (a.volume ≤ b.volume)
  | .Volume, .Descending => decide (b.volume ≤ a.volume)

def sortRel (cfg : SortConfig) (a b : PriceInfo) : Prop := sortLEb cfg a b = true

instance (cfg : SortConfig) : DecidableRel (sortRel cfg) :=
  fun a b => instDecidableEqBool (sortLEb cfg a b) true

/-- `App::sort_price_infos` (a stable sort by the arm's comparator). -/
def sort_price_infos (cfg : SortConfig) (l : List PriceInfo) : List PriceInfo :=
  List.insertionSort (sortRel cfg) l

/-- `App::apply_preset_filters`.  `(n as f64 * 0.2).ceil() as usize` is
`⌈n/5⌉ = (n+4)/5` exactly: `0.2_f64` differs from `1/5` by under `2⁻⁵⁴`
relatively, so for every list length the rounded product has the same
ceiling as `n/5`. -/
def apply_preset_filters (preset : FilterPreset) (l : List PriceInfo) : List PriceInfo :=
  match preset with
  | .All => l
  | .TopGainers => l.filter fun p => decide (5 < p.price_change_percent)
  | .TopLosers => l.filter fun p => decide (p.price_change_percent < -5)
  | .HighVolume =>
    if l.isEmpty then l
    else
      let sorted_by_volume :=
        List.insertionSort (fun a b : PriceInfo => b.volume ≤ a.volume) l
      let top_count := (l.length + 4) / 5
      let min_volume := ((sorted_by_volume.get? (top_count - 1)).map PriceInfo.volume).getD 0
      l.filter fun p => decide (min_volume ≤ p.volume)
  | .Volatile => l.filter fun p => decide (3 < |p.price_change_percent|)
  | .Stable => l.filter fun p => decide (|p.price_change_percent| < 1)

/-- One `retain` pass of `App::apply_custom_filters`. -/
def apply_one_filter (l : List PriceInfo) (f : FilterType) : List PriceInfo :=
  match f with
  | .PriceRange min max =>
    l.filter fun p =>
      (match min with | none => true | some m => decide (m ≤ p.price)) &&
      (match max with | none => true | some m => decide (p.price ≤ m))
  | .ChangePercentRange min max =>
    l.filter fun p =>
      (match min with | none => true | some m => decide (m ≤ p.price_change_percent)) &&
      (match max with | none => true | some m => decide (p.price_change_percent ≤ m))
  | .VolumeRange min max =>
    l.filter fun p =>
      (match min with | none => true | some m => decide (m ≤ p.volume)) &&
      (match max with | none => true | some m => decide (p.volume ≤ m))
  | .SymbolSearch q =>
    if q.isEmpty then l
    else l.filter fun p =>
      decide (List.IsInfix (q.map Char.toLower) (p.symbol.map Char.toLower))

/-- `App::apply_custom_filters` (each active filter's `retain`, in order). -/
def apply_custom_filters (filters : List FilterType) (l : List PriceInfo) : List PriceInfo :=
  filters.foldl apply_one_filter l

/-- The pure pipeline of `App::apply_filters_and_sorting`: preset, then
custom filters, then sort. -/
def pipeline (all : List PriceInfo) (preset : FilterPreset) (filters : List FilterType)
    (cfg : SortConfig) : List PriceInfo :=
  sort_price_infos cfg (apply_custom_filters filters (apply_preset_filters preset all))

/-- `App::apply_filters_and_sorting`. -/
def App.apply_filters_and_sorting (s : App) : App :=
  { s with price_infos := pipeline s.all_price_infos s.active_preset s.active_filters s.sort_config }

/-- The trigger predicate of `App::check_alerts` for one condition against
the matched record. -/
def condHolds (c : AlertCondition) (p : PriceInfo) : Bool :=
  match c with
  | .PriceAbove t => decide (t < p.price)
  | .PriceBelow t => decide (p.price < t)
  | .PercentChangeAbove t => decide (t < p.price_change_percent)
  | .PercentChangeBelow t => decide (p.price_change_percent < t)
  | .VolumeSpike t => decide (t < p.volume)

/-- The notification message built in `App::check_alerts`: the custom
message if set, else the per-condition template's data. -/
def mk_alert_message (a : PriceAlert) (p : PriceInfo) : AlertMsg :=
  match a.message with
  | some m => .custom m
  | none => .templated a.condition a.symbol p.price p.price_change_percent p.volume

/-- `recent_alerts.push(..)` followed by the keep-last-10 eviction. -/
def push_recent (recent : List (AlertMsg × Int)) (e : AlertMsg × Int) : List (AlertMsg × Int) :=
  let r := recent ++ [e]
  if 10 < r.length then r.drop 1 else r

/-- One iteration of the `for alert in &mut self.alerts` loop of
`App::check_alerts`: the updated alert and the message to push, if any. -/
def step_alert (now : Int) (records : List PriceInfo) (a : PriceAlert) :
    PriceAlert × Option AlertMsg :=
  if !a.enabled then (a, none)
  else
    match records.find? (fun p => decide (p.symbol = a.symbol)) with
    | none => (a, none)
    | some p =>
      if condHolds a.condition p then
        let should_notify :=
          match a.last_triggered with
          | some t => decide (3600 ≤ now - t)
          | none => true
        if should_notify then
          ({ a with last_triggered := some now, trigger_count := a.trigger_count + 1 },
           some (mk_alert_message a p))
        else (a, none)
      else (a, none)

/-- The whole alert loop, threading the recent-alert list through. -/
def check_alerts_loop (now : Int) (records : List PriceInfo) :
    List PriceAlert → List (AlertMsg × Int) → List PriceAlert × List (AlertMsg × Int)
  | [], recent => ([], recent)
  | a :: rest, recent =>
    let s := step_alert now records a
    let recent1 := match s.2 with
      | some m => push_recent recent (m, now)
      | none => recent
    let r := check_alerts_loop now records rest recent1
    (s.1 :: r.1, r.2)

/-- `App::check_alerts` (the bell print is an external effect). -/
def App.check_alerts (now : Int) (s : App) : App :=
  let r := check_alerts_loop now s.all_price_infos s.alerts s.recent_alerts
  { s with alerts := r.1, recent_alerts := r.2 }

/-- The re-validation guard after a snapshot refresh: clamp an
out-of-bounds selection to the last valid index (no-op on an empty list). -/
def clamp_oob (s3 : App) : App :=
  if s3.price_infos.length ≤ s3.selected_index ∧ ¬s3.price_infos.isEmpty then
    { s3 with selected_index := s3.price_infos.length - 1 }
  else s3

/-- The re-validation guard after filter/preset/search changes: reset an
out-of-bounds selection to 0 (no-op on an empty list). -/
def reset_oob (s1 : App) : App :=
  if s1.price_infos.length ≤ s1.selected_index ∧ ¬s1.price_infos.isEmpty then
    { s1 with selected_index := 0 }
  else s1

/-- `App::update_prices` (replace snapshot, scan alerts, recompute the
view, clamp the selection to the last valid index on shrink). -/
def App.update_prices (now : Int) (s : App) (price_infos : List PriceInfo) : App :=
  clamp_oob (App.apply_filters_and_sorting
    (App.check_alerts now { s with all_price_infos := price_infos }))

/-- `App::next_sort_mode` (re-sorts the current visible list in place). -/
def App.next_sort_mode (s : App) : App :=
  let s1 := { s with sort_config := s.sort_config.next_mode }
  if s1.price_infos.isEmpty then s1
  else { s1 with price_infos := sort_price_infos s1.sort_config s1.price_infos }

/-- `App::toggle_sort_direction` (re-sorts the current visible list in place). -/
def App.toggle_sort_direction (s : App) : App :=
  let s1 := { s with sort_config := s.sort_config.toggle_direction }
  if s1.price_infos.isEmpty then s1
  else { s1 with price_infos := sort_price_infos s1.sort_config s1.price_infos }

/-- `App::select_next`. -/
def App.select_next (s : App) : App :=
  if s.price_infos.isEmpty then s
  else { s with selected_index := (s.selected_index + 1) % s.price_infos.length }

/-- `App::select_previous`. -/
def App.select_previous (s : App) : App :=
  if s.price_infos.isEmpty then s
  else if s.selected_index = 0 then { s with selected_index := s.price_infos.length - 1 }
  else { s with selected_index := s.selected_index - 1 }

def isSymbolSearch : FilterType → Bool
  | .SymbolSearch _ => true
  | _ => false

/-- `App::enter_search_mode` (clears the query and drops any symbol-search
filter; does not recompute the visible list). -/
def App.enter_search_mode (s : App) : App :=
  { s with search_mode := true
           search_query := []
           active_filters := s.active_filters.filter fun f => !isSymbolSearch f }

/-- `App::exit_search_mode` (drops the search filter and recomputes; the
selection is not re-validated here). -/
def App.exit_search_mode (s : App) : App :=
  App.apply_filters_and_sorting
    { s with search_mode := false
             search_query := []
             active_filters := s.active_filters.filter fun f => !isSymbolSearch f }

/-- `App::apply_search_filter`. -/
def App.apply_search_filter (s : App) : App :=
  let kept := s.active_filters.filter fun f => !isSymbolSearch f
  let filters := if s.search_query.isEmpty then kept
    else kept ++ [FilterType.SymbolSearch s.search_query]
  reset_oob (App.apply_filters_and_sorting { s with active_filters := filters })

/-- `App::update_search_query`. -/
def App.update_search_query (s : App) (c : Char) : App :=
  App.apply_search_filter { s with search_query := s.search_query ++ [c] }

/-- `App::backspace_search` (`String::pop` drops the last character). -/
def App.backspace_search (s : App) : App :=
  App.apply_search_filter { s with search_query := s.search_query.dropLast }

/-- `App::get_selected_symbol`. -/
def App.get_selected_symbol (s : App) : Option PriceInfo :=
  s.price_infos.get? s.selected_index

/-- `App::update_candles_for_selected`. -/
def App.update_candles_for_selected (s : App) (candles : List Candle) : App :=
  match s.price_infos.get? s.selected_index with
  | some selected =>
    { s with selected_candles := candles, selected_symbol_candles := selected.symbol }
  | none => s

/-- `App::should_fetch_candles`. -/
def App.should_fetch_candles (s : App) : Option (List Char) :=
  match s.get_selected_symbol with
  | some selected =>
    if s.selected_symbol_candles ≠ selected.symbol ∨ s.selected_candles.isEmpty then
      some selected.symbol
    else none
  | none => none

/-- `App::next_filter_preset`. -/
def App.next_filter_preset (s : App) : App :=
  reset_oob (App.apply_filters_and_sorting { s with active_preset := s.active_preset.next })

/-- `App::set_filter_preset`. -/
def App.set_filter_preset (s : App) (preset : FilterPreset) : App :=
  reset_oob (App.apply_filters_and_sorting { s with active_preset := preset })

/-- `matches_filter_type` (same filter kind). -/
def matches_filter_type : FilterType → FilterType → Bool
  | .PriceRange _ _, .PriceRange _ _ => true
  | .ChangePercentRange _ _, .ChangePercentRange _ _ => true
  | .VolumeRange _ _, .VolumeRange _ _ => true
  | .SymbolSearch _, .SymbolSearch _ => true
  | _, _ => false

/-- `App::add_filter`. -/
def App.add_filter (s : App) (f : FilterType) : App :=
  reset_oob (App.apply_filters_and_sorting
    { s with active_filters :=
        (s.active_filters.filter fun g => !matches_filter_type g f) ++ [f] })

/-- `App::remove_filter`. -/
def App.remove_filter (s : App) (f : FilterType) : App :=
  reset_oob (App.apply_filters_and_sorting
    { s with active_filters := s.active_filters.filter fun g => !matches_filter_type g f })

/-- `App::clear_all_filters` (unconditionally resets the selection). -/
def App.clear_all_filters (s : App) : App :=
  let s1 := App.apply_filters_and_sorting
    { s with active_filters := [], active_preset := .All }
  { s1 with selected_index := 0 }

/-- `App::record_successful_sync`. -/
def App.record_successful_sync (now : Int) (s : App) : App :=
  { s with data_status :=
      { s.data_status with
          last_successful_sync := some now
          last_price_update := some now
          consecutive_failures := 0 } }

/-- `App::record_sync_failure`. -/
def App.record_sync_failure (s : App) : App :=
  let ds := { s.data_status with consecutive_failures := s.data_status.consecutive_failures + 1 }
  if 3 ≤ ds.consecutive_failures then
    { s with data_status := { ds with offline_mode := true } }
  else { s with data_status := ds }

/-- `App::toggle_offline_mode` (resets the failure counter only when the
toggle turns offline mode on). -/
def App.toggle_offline_mode (s : App) : App :=
  let ds := { s.data_status with offline_mode := !s.data_status.offline_mode }
  if ds.offline_mode then
    { s with data_status := { ds with consecutive_failures := 0 } }
  else { s with data_status := ds }

/-- An `f64` as the pipeline sees it: either NaN or an ordered value. -/
inductive F64 where
  | nan
  | num (q : ℚ)
deriving DecidableEq

/-- `f64::partial_cmp`: `None` iff either operand is NaN. -/
def fcmp : F64 → F64 → Option Ordering
  | .num a, .num b => some (compare a b)
  | _, _ => none

/-- `f64 <` (false whenever an operand is NaN, like Rust's `PartialOrd`). -/
def flt : F64 → F64 → Bool
  | .num a, .num b => decide (a < b)
  | _, _ => false

/-- `f64 <=` (false whenever an operand is NaN). -/
def fle : F64 → F64 → Bool
  | .num a, .num b => decide (a ≤ b)
  | _, _ => false

/-- `f64::abs` (NaN stays NaN). -/
def fabs : F64 → F64
  | .nan => .nan
  | .num q => .num |q|

/-- `PriceInfo` with its floating-point fields kept partial. -/
structure FlInfo where
  symbol : List Char
  price : F64
  price_change_percent : F64
  volume : F64
  high_24h : F64
  low_24h : F64
  prev_close_price : F64
deriving DecidableEq

/-- `orderedInsert` against a comparator that can fail (the embedded
`partial_cmp(..).unwrap()`): any failed comparison aborts the sort. -/
def orderedInsertP (cmp : α → α → Option Bool) (a : α) : List α → Option (List α)
  | [] => some [a]
  | b :: l =>
    match cmp a b with
    | none => none
    | some true => some (a :: b :: l)
    | some false =>
      match orderedInsertP cmp a l with
      | none => none
      | some r => some (b :: r)

/-- Stable sort against a failing comparator. -/
def insertionSortP (cmp : α → α → Option Bool) : List α → Option (List α)
  | [] => some []
  | a :: l =>
    match insertionSortP cmp l with
    | none => none
    | some r => orderedInsertP cmp a r

/-- The `sort_by` closure of an ascending numeric arm:
`key(a).partial_cmp(&key(b)).unwrap() ≠ Greater`, with the unwrap kept as
`Option`. -/
def cmpAscP (key : α → F64) (a b : α) : Option Bool :=
  (fcmp (key a) (key b)).map fun o => decide (o ≠ Ordering.gt)

/-- The `sort_by` closure of a descending numeric arm. -/
def cmpDescP (key : α → F64) (a b : α) : Option Bool :=
  (fcmp (key b) (key a)).map fun o => decide (o ≠ Ordering.gt)

/-- `App::sort_price_infos` with the comparator failures kept. -/
def sort_price_infosP (cfg : SortConfig) (l : List FlInfo) : Option (List FlInfo) :=
  match cfg.mode, cfg.direction with
  | .Symbol, .Ascending =>
    some (@List.insertionSort _ (fun a b : FlInfo => lexLe a.symbol b.symbol = true)
      (fun _ _ => instDecidableEqBool _ _) l)
  | .Symbol, .Descending =>
    some (@List.insertionSort _ (fun a b : FlInfo => lexLe b.symbol a.symbol = true)
      (fun _ _ => instDecidableEqBool _ _) l)
  | .Price, .Ascending => insertionSortP (cmpAscP FlInfo.price) l
  | .Price, .Descending => insertionSortP (cmpDescP FlInfo.price) l
  | .ChangePercent, .Ascending => insertionSortP (cmpAscP FlInfo.price_change_percent) l
  | .ChangePercent, .Descending => insertionSortP (cmpDescP FlInfo.price_change_percent) l
  | .Volume, .Ascending => insertionSortP (cmpAscP FlInfo.volume) l
  | .Volume, .Descending => insertionSortP (cmpDescP FlInfo.volume) l

/-- `App::apply_preset_filters` with the `HighVolume` sort's comparator
failures kept (the `retain` comparisons are NaN-safe booleans in Rust). -/
def apply_preset_filtersP (preset : FilterPreset) (l : List FlInfo) : Option (List FlInfo) :=
  match preset with
  | .All => some l
  | .TopGainers => some (l.filter fun p => flt (.num 5) p.price_change_percent)
  | .TopLosers => some (l.filter fun p => flt p.price_change_percent (.num (-5)))
  | .HighVolume =>
    if l.isEmpty then some l
    else
      match insertionSortP (cmpDescP FlInfo.volume) l with
      | none => none
      | some sorted_by_volume =>
        let top_count := (l.length + 4) / 5
        let min_volume := ((sorted_by_volume.get? (top_count - 1)).map FlInfo.volume).getD (.num 0)
        some (l.filter fun p => fle min_volume p.volume)
  | .Volatile => some (l.filter fun p => flt (.num 3) (fabs p.price_change_percent))
  | .Stable => some (l.filter fun p => flt (fabs p.price_change_percent) (.num 1))

/-- One `retain` pass of `App::apply_custom_filters` over partial floats
(all its comparisons are NaN-safe booleans, never `unwrap`). -/
def apply_one_filterP (l : List FlInfo) (f : FilterType) : List FlInfo :=
  match f with
  | .PriceRange min max =>
    l.filter fun p =>
      (match min with | none => true | some m => fle (.num m) p.price) &&
      (match max with | none => true | some m => fle p.price (.num m))
  | .ChangePercentRange min max =>
    l.filter fun p =>
      (match min with | none => true | some m => fle (.num m) p.price_change_percent) &&
      (match max with | none => true | some m => fle p.price_change_percent (.num m))
  | .VolumeRange min max =>
    l.filter fun p =>
      (match min with | none => true | some m => fle (.num m) p.volume) &&
      (match max with | none => true | some m => fle p.volume (.num m))
  | .SymbolSearch q =>
    if q.isEmpty then l
    else l.filter fun p =>
      decide (List.IsInfix (q.map Char.toLower) (p.symbol.map Char.toLower))

def apply_custom_filtersP (filters : List FilterType) (l : List FlInfo) : List FlInfo :=
  filters.foldl apply_one_filterP l

/-- The filter/sort pipeline over partial floats: a comparator failure
anywhere makes the whole pipeline fail. -/
def pipelineP (all : List FlInfo) (preset : FilterPreset) (filters : List FilterType)
    (cfg : SortConfig) : Option (List FlInfo) :=
  match apply_preset_filtersP preset all with
  | none => none
  | some l1 => sort_price_infosP cfg (apply_custom_filtersP filters l1)

/-- No floating-point field of the record is NaN. -/
def noNaN (p : FlInfo) : Prop :=
  p.price ≠ .nan ∧ p.price_change_percent ≠ .nan ∧ p.volume ≠ .nan

instance (p : FlInfo) : Decidable (noNaN p) := by unfold noNaN; infer_instance

/-- The visible list equals the pure pipeline of the current snapshot,
preset, custom filters and sort configuration. -/
def view_inv (t : App) : Prop :=
  t.price_infos = pipeline t.all_price_infos t.active_preset t.active_filters t.sort_config

/-- A record with the given symbol, price, 24h change and volume (the
remaining fields zero); used for concrete test states. -/
def mkRec (sym : List Char) (price change volume : ℚ) : PriceInfo :=
  ⟨sym, price, change, volume, 0, 0, 0⟩

def c9_state : App := App.new.record_sync_failure.record_sync_failure.record_sync_failure

def c1_state : App :=
  ((App.new.update_prices 0 [mkRec "AAA".data 1 0 0, mkRec "BBB".data 1 0 0]
    ).toggle_sort_direction).next_sort_mode

def c7_three : App :=
  ((App.new.update_prices 0
      [mkRec "AAA".data 1 0 0, mkRec "BBB".data 1 0 0, mkRec "CCC".data 1 0 0]
    ).select_next).select_next

def c7_gain : App :=
  ((App.new.update_prices 0
      [mkRec "AAA".data 1 0 0, mkRec "BBB".data 1 0 0, mkRec "GGG".data 1 6 0]
    ).select_next).select_next

def c7_bad : App :=
  (((((App.new.update_prices 0 [mkRec "AAA".data 1 0 0, mkRec "BBB".data 1 0 0]
    ).select_next).enter_search_mode).update_search_query 'Z').update_prices 0
      [mkRec "CCC".data 1 0 0]).exit_search_mode

def c2_alert : PriceAlert := ⟨1, "BTCUSDT".data, .PriceAbove 100, true, 0, none, 0, none⟩

def c2_s0 : App :=
  { App.new with all_price_infos := [mkRec "BTCUSDT".data 150 0 0], alerts := [c2_alert] }

def c2_s1 : App := c2_s0.check_alerts 0

def c4_list : List PriceInfo :=
  [mkRec "A".data 0 0 1000, mkRec "B".data 0 0 500, mkRec "C".data 0 0 100,
   mkRec "D".data 0 0 2000, mkRec "E".data 0 0 800]

def c5_eth : PriceInfo := mkRec "ETHUSDT".data 3000 (mkRat (-12) 10) 0

def c5_btc : PriceInfo := mkRec "BTCUSDT".data 50000 (mkRat 25 10) 0

theorem lexLe_total : ∀ a b : List Char, (lexLe a b || lexLe b a) = true
  | [], _ => by simp [lexLe]
  | _ :: _, [] => by simp [lexLe]
  | c :: cs, d :: ds => by
    by_cases h1 : c < d
    · simp [lexLe, h1]
    · by_cases h2 : d < c
      · simp [lexLe, h1, h2]
      · have ih := lexLe_total cs ds
        simp [lexLe, h1, h2] at ih ⊢
        exact ih

theorem lexLe_trans :
    ∀ a b c : List Char, lexLe a b = true → lexLe b c = true → lexLe a c = true
  | [], _, _ => by intro _ _; simp [lexLe]
  | _ :: _, [], _ => by intro h _; simp [lexLe] at h
  | _ :: _, _ :: _, [] => by intro _ h; simp [lexLe] at h
  | a :: as, b :: bs, c :: cs => by
    intro h1 h2
    simp only [lexLe] at h1 h2 ⊢
    rcases lt_trichotomy a b with hab | hab | hab
    · rcases lt_trichotomy b c with hbc | hbc | hbc
      · simp [lt_trans hab hbc]
      · subst hbc; simp [hab]
      · rw [if_neg (asymm hbc), if_pos hbc] at h2
        simp at h2
    · subst hab
      rw [if_neg (lt_irrefl a), if_neg (lt_irrefl a)] at h1
      rcases lt_trichotomy a c with hac | hac | hac
      · simp [hac]
      · subst hac
        rw [if_neg (lt_irrefl a), if_neg (lt_irrefl a)] at h2 ⊢
        exact lexLe_trans as bs cs h1 h2
      · rw [if_neg (asymm hac), if_pos hac] at h2
        simp at h2
    · rw [if_neg (asymm hab), if_pos hab] at h1
      simp at h1

theorem sortLEb_total (cfg : SortConfig) (a b : PriceInfo) :
    (sortLEb cfg a b || sortLEb cfg b a) = true := by
  obtain ⟨mode, dir⟩ := cfg
  cases mode <;> cases dir <;>
    first
    | exact lexLe_total _ _
    | · simp only [sortLEb, Bool.or_eq_true, decide_eq_true_eq]
        exact le_total _ _

theorem sortLEb_trans (cfg : SortConfig) (a b c : PriceInfo) :
    sortLEb cfg a b = true → sortLEb cfg b c = true → sortLEb cfg a c = true := by
  obtain ⟨mode, dir⟩ := cfg
  cases mode <;> cases dir <;>
    first
    | exact fun h1 h2 => lexLe_trans _ _ _ h1 h2
    | exact fun h1 h2 => lexLe_trans _ _ _ h2 h1
    | · simp only [sortLEb, decide_eq_true_eq]
        exact fun h1 h2 => le_trans h1 h2
    | · simp only [sortLEb, decide_eq_true_eq]
        exact fun h1 h2 => le_trans h2 h1

instance (cfg : SortConfig) : IsTotal PriceInfo (sortRel cfg) :=
  ⟨fun a b => by
    have h := sortLEb_total cfg a b
    rcases Bool.or_eq_true_iff.mp h with h' | h'
    · exact Or.inl h'
    · exact Or.inr h'⟩

instance (cfg : SortConfig) : IsTrans PriceInfo (sortRel cfg) :=
  ⟨fun a b c h1 h2 => sortLEb_trans cfg a b c h1 h2⟩

theorem rsf_status (s : App) :
    (s.record_sync_failure).data_status.consecutive_failures =
      s.data_status.consecutive_failures + 1
    ∧ (s.record_sync_failure).data_status.offline_mode =
        (if 3 ≤ s.data_status.consecutive_failures + 1 then true
         else s.data_status.offline_mode) := by
  unfold App.record_sync_failure
  split
  · rename_i h; simp [h]
  · rename_i h; simp [h]

/-- C3: three consecutive `record_sync_failure` calls turn offline mode
on; a following `record_successful_sync` stamps both timestamps with
`now` and zeroes `consecutive_failures` but leaves offline mode on. -/
theorem C3_offline_trigger_and_persistence (s : App) (now : Int) :
    s.record_sync_failure.record_sync_failure.record_sync_failure.data_status.offline_mode = true
    ∧ (s.record_sync_failure.record_sync_failure.record_sync_failure.record_successful_sync
        now).data_status.last_successful_sync = some now
    ∧ (s.record_sync_failure.record_sync_failure.record_sync_failure.record_successful_sync
        now).data_status.last_price_update = some now
    ∧ (s.record_sync_failure.record_sync_failure.record_sync_failure.record_successful_sync
        now).data_status.consecutive_failures = 0
    ∧ (s.record_sync_failure.record_sync_failure.record_sync_failure.record_successful_sync
        now).data_status.offline_mode = true := by
  have h1 := rsf_status s
  have h2 := rsf_status s.record_sync_failure
  have h3 := rsf_status s.record_sync_failure.record_sync_failure
  have hoff :
      s.record_sync_failure.record_sync_failure.record_sync_failure.data_status.offline_mode =
        true := by
    rw [h3.2, h2.1, h1.1, if_pos (by omega)]
  exact ⟨hoff, by simp [App.record_successful_sync], by simp [App.record_successful_sync],
    by simp [App.record_successful_sync], by simp [App.record_successful_sync, hoff]⟩

/-- C9 (amended): a manual offline toggle always flips the flag, but it
resets `consecutive_failures` only when the toggle turns offline mode on;
toggling out of offline mode leaves the counter unchanged. -/
theorem C9_toggle_offline_mode (s : App) :
    (s.toggle_offline_mode).data_status.offline_mode = !s.data_status.offline_mode
    ∧ (s.toggle_offline_mode).data_status.consecutive_failures =
        (if s.data_status.offline_mode then s.data_status.consecutive_failures else 0) := by
  unfold App.toggle_offline_mode
  cases h : s.data_status.offline_mode <;> simp [h]

/-- C9 counterexample: from the reachable state after three sync failures
(offline on, counter 3), a manual toggle transitions out of offline mode
and leaves `consecutive_failures` at 3 — it is not reset to 0. -/
theorem C9_counterexample :
    c9_state.data_status.offline_mode = true
    ∧ c9_state.toggle_offline_mode.data_status.offline_mode = false
    ∧ c9_state.toggle_offline_mode.data_status.consecutive_failures ≠ 0 := by decide

theorem clamp_oob_price (t : App) : (clamp_oob t).price_infos = t.price_infos := by
  unfold clamp_oob; split <;> rfl

theorem clamp_oob_sel_of_empty (t : App) (h : t.price_infos = []) :
    (clamp_oob t).selected_index = t.selected_index := by
  unfold clamp_oob
  rw [if_neg]
  intro hc
  exact hc.2 (List.isEmpty_eq_true.mpr h)

theorem clamp_oob_lt (t : App) (hne : t.price_infos ≠ []) :
    (clamp_oob t).selected_index < t.price_infos.length := by
  unfold clamp_oob
  split
  · show t.price_infos.length - 1 < t.price_infos.length
    have hpos : 0 < t.price_infos.length := List.length_pos.mpr hne
    omega
  · rename_i hc
    show t.selected_index < t.price_infos.length
    by_contra hnot
    exact hc ⟨Nat.le_of_not_lt hnot, fun hie => hne (List.isEmpty_eq_true.mp hie)⟩

theorem clamp_oob_clamps (t : App) (hne : t.price_infos ≠ [])
    (hoob : t.price_infos.length ≤ t.selected_index) :
    (clamp_oob t).selected_index = t.price_infos.length - 1 := by
  unfold clamp_oob
  rw [if_pos ⟨hoob, fun hie => hne (List.isEmpty_eq_true.mp hie)⟩]

theorem reset_oob_price (t : App) : (reset_oob t).price_infos = t.price_infos := by
  unfold reset_oob; split <;> rfl

theorem reset_oob_filters (t : App) : (reset_oob t).active_filters = t.active_filters := by
  unfold reset_oob; split <;> rfl

theorem reset_oob_query (t : App) : (reset_oob t).search_query = t.search_query := by
  unfold reset_oob; split <;> rfl

theorem reset_oob_lt (t : App) (hne : t.price_infos ≠ []) :
    (reset_oob t).selected_index < t.price_infos.length := by
  unfold reset_oob
  split
  · show 0 < t.price_infos.length
    exact List.length_pos.mpr hne
  · rename_i hc
    show t.selected_index < t.price_infos.length
    by_contra hnot
    exact hc ⟨Nat.le_of_not_lt hnot, fun hie => hne (List.isEmpty_eq_true.mp hie)⟩

theorem reset_oob_resets (t : App) (hne : t.price_infos ≠ [])
    (hoob : t.price_infos.length ≤ t.selected_index) :
    (reset_oob t).selected_index = 0 := by
  unfold reset_oob
  rw [if_pos ⟨hoob, fun hie => hne (List.isEmpty_eq_true.mp hie)⟩]

/-- C10: with an empty visible list the selected-row accessors are safe
(`none` / no-op) and `update_prices` leaves the stale `selected_index`
untouched when the recomputed list is empty. -/
theorem C10_empty_visible_safety :
    (∀ s : App, s.price_infos = [] →
      s.get_selected_symbol = none
      ∧ s.should_fetch_candles = none
      ∧ ∀ cs, s.update_candles_for_selected cs = s)
    ∧ (∀ (now : Int) (s : App) (l : List PriceInfo),
        (s.update_prices now l).price_infos = [] →
        (s.update_prices now l).selected_index = s.selected_index) := by
  constructor
  · intro s h
    have hg : s.get_selected_symbol = none := by
      simp [App.get_selected_symbol, h]
    refine ⟨hg, ?_, ?_⟩
    · simp [App.should_fetch_candles, hg]
    · intro cs
      simp [App.update_candles_for_selected, h]
  · intro now s l h
    simp only [App.update_prices] at h ⊢
    rw [clamp_oob_price] at h
    rw [clamp_oob_sel_of_empty _ h]
    rfl

/-- Witness for C10 at the empty starting state. -/
theorem C10_empty_visible_safety_witness :
    App.new.get_selected_symbol = none
    ∧ App.new.should_fetch_candles = none
    ∧ App.new.update_candles_for_selected [] = App.new
    ∧ (App.new.update_prices 0 []).selected_index = App.new.selected_index := by
  obtain ⟨h1, h2⟩ := C10_empty_visible_safety
  obtain ⟨a, b, c⟩ := h1 App.new rfl
  exact ⟨a, b, c [], h2 0 App.new [] (by decide)⟩

theorem view_inv_after_pipeline (t : App) : view_inv t.apply_filters_and_sorting := rfl

theorem view_inv_sel (t : App) (n : Nat) (h : view_inv t) :
    view_inv { t with selected_index := n } := h

theorem view_inv_ite (c : Prop) [Decidable c] (a b : App) (ha : view_inv a)
    (hb : view_inv b) : view_inv (if c then a else b) := by
  split <;> assumption

/-- C1 (amended): every mutating operation that recomputes the view —
snapshot replacement, preset changes, custom-filter changes, search-query
edits and exiting search mode — re-establishes the pipeline invariant.
(Sort-mode/direction changes instead re-sort the previous visible list in
place, which can disagree with the pipeline on ties, and entering search
mode edits the filter set without recomputing: see the counterexample.) -/
theorem C1_view_recomputed (now : Int) (s : App) (l : List PriceInfo)
    (preset : FilterPreset) (f g : FilterType) (c : Char) :
    view_inv (s.update_prices now l)
    ∧ view_inv (s.set_filter_preset preset)
    ∧ view_inv s.next_filter_preset
    ∧ view_inv (s.add_filter f)
    ∧ view_inv (s.remove_filter g)
    ∧ view_inv s.clear_all_filters
    ∧ view_inv (s.update_search_query c)
    ∧ view_inv s.backspace_search
    ∧ view_inv s.exit_search_mode := by
  refine ⟨?_, ?_, ?_, ?_, ?_, ?_, ?_, ?_, ?_⟩
  · exact view_inv_ite _ _ _ (view_inv_sel _ _ (view_inv_after_pipeline _))
      (view_inv_after_pipeline _)
  · exact view_inv_ite _ _ _ (view_inv_sel _ _ (view_inv_after_pipeline _))
      (view_inv_after_pipeline _)
  · exact view_inv_ite _ _ _ (view_inv_sel _ _ (view_inv_after_pipeline _))
      (view_inv_after_pipeline _)
  · exact view_inv_ite _ _ _ (view_inv_sel _ _ (view_inv_after_pipeline _))
      (view_inv_after_pipeline _)
  · exact view_inv_ite _ _ _ (view_inv_sel _ _ (view_inv_after_pipeline _))
      (view_inv_after_pipeline _)
  · exact view_inv_sel _ _ (view_inv_after_pipeline _)
  · exact view_inv_ite _ _ _ (view_inv_sel _ _ (view_inv_after_pipeline _))
      (view_inv_after_pipeline _)
  · exact view_inv_ite _ _ _ (view_inv_sel _ _ (view_inv_after_pipeline _))
      (view_inv_after_pipeline _)
  · exact view_inv_after_pipeline _

/-- C1 counterexample: two equal-priced records, sorted Symbol-descending,
then `next_sort_mode` (a sort-mode change, one of the claim's operations):
the in-place stable re-sort keeps the previous tie order `[B, A]`, while
the pure pipeline from `all_price_infos` yields `[A, B]`. -/
theorem C1_counterexample :
    ¬ (c1_state.price_infos =
        pipeline c1_state.all_price_infos c1_state.active_preset c1_state.active_filters
          c1_state.sort_config) := by decide

/-- C7 (amended): after a snapshot replacement the selection is clamped
into bounds (to the last valid index when the old index is out of range),
and after every preset/filter/search-query change the selection is in
bounds (reset to 0 when the old index is out of range); the concrete
3-row → 1-row replacement with `selected_index = 2` yields 0.
(`exit_search_mode` performs no such re-validation and can leave the
index out of bounds on a non-empty list: see the counterexample.) -/
theorem C7_selection_clamp :
    (∀ (now : Int) (s : App) (l : List PriceInfo),
      ((s.update_prices now l).price_infos ≠ [] →
        (s.update_prices now l).selected_index < (s.update_prices now l).price_infos.length)
      ∧ ((s.update_prices now l).price_infos ≠ [] →
          (s.update_prices now l).price_infos.length ≤ s.selected_index →
          (s.update_prices now l).selected_index =
            (s.update_prices now l).price_infos.length - 1))
    ∧ (∀ (s : App) (p : FilterPreset),
      ((s.set_filter_preset p).price_infos ≠ [] →
        (s.set_filter_preset p).selected_index < (s.set_filter_preset p).price_infos.length)
      ∧ ((s.set_filter_preset p).price_infos ≠ [] →
          (s.set_filter_preset p).price_infos.length ≤ s.selected_index →
          (s.set_filter_preset p).selected_index = 0))
    ∧ (∀ s : App,
      (s.next_filter_preset.price_infos ≠ [] →
        s.next_filter_preset.selected_index < s.next_filter_preset.price_infos.length)
      ∧ (s.next_filter_preset.price_infos ≠ [] →
          s.next_filter_preset.price_infos.length ≤ s.selected_index →
          s.next_filter_preset.selected_index = 0))
    ∧ (∀ (s : App) (f : FilterType),
      ((s.add_filter f).price_infos ≠ [] →
        (s.add_filter f).selected_index < (s.add_filter f).price_infos.length)
      ∧ ((s.add_filter f).price_infos ≠ [] →
          (s.add_filter f).price_infos.length ≤ s.selected_index →
          (s.add_filter f).selected_index = 0))
    ∧ (∀ (s : App) (f : FilterType),
      ((s.remove_filter f).price_infos ≠ [] →
        (s.remove_filter f).selected_index < (s.remove_filter f).price_infos.length)
      ∧ ((s.remove_filter f).price_infos ≠ [] →
          (s.remove_filter f).price_infos.length ≤ s.selected_index →
          (s.remove_filter f).selected_index = 0))
    ∧ (∀ s : App,
      (s.clear_all_filters.price_infos ≠ [] →
        s.clear_all_filters.selected_index < s.clear_all_filters.price_infos.length)
      ∧ s.clear_all_filters.selected_index = 0)
    ∧ (∀ (s : App) (c : Char),
      ((s.update_search_query c).price_infos ≠ [] →
        (s.update_search_query c).selected_index <
          (s.update_search_query c).price_infos.length)
      ∧ ((s.update_search_query c).price_infos ≠ [] →
          (s.update_search_query c).price_infos.length ≤ s.selected_index →
          (s.update_search_query c).selected_index = 0))
    ∧ (∀ s : App,
      (s.backspace_search.price_infos ≠ [] →
        s.backspace_search.selected_index < s.backspace_search.price_infos.length)
      ∧ (s.backspace_search.price_infos ≠ [] →
          s.backspace_search.price_infos.length ≤ s.selected_index →
          s.backspace_search.selected_index = 0))
    ∧ ((c7_three.update_prices 0 [mkRec "DDD".data 1 0 0]).selected_index = 0
        ∧ (c7_three.update_prices 0 [mkRec "DDD".data 1 0 0]).price_infos.length = 1
        ∧ c7_three.selected_index = 2) := by
  refine ⟨?_, ?_, ?_, ?_, ?_, ?_, ?_, ?_, by decide, by decide, by decide⟩
  · intro now s l
    constructor
    · intro hne
      simp only [App.update_prices] at hne ⊢
      rw [clamp_oob_price] at hne
      rw [clamp_oob_price]
      exact clamp_oob_lt _ hne
    · intro hne hoob
      simp only [App.update_prices] at hne hoob ⊢
      rw [clamp_oob_price] at hne hoob
      rw [clamp_oob_price]
      exact clamp_oob_clamps _ hne hoob
  · intro s p
    constructor
    · intro hne
      simp only [App.set_filter_preset] at hne ⊢
      rw [reset_oob_price] at hne
      rw [reset_oob_price]
      exact reset_oob_lt _ hne
    · intro hne hoob
      simp only [App.set_filter_preset] at hne hoob ⊢
      rw [reset_oob_price] at hne hoob
      exact reset_oob_resets _ hne hoob
  · intro s
    constructor
    · intro hne
      simp only [App.next_filter_preset] at hne ⊢
      rw [reset_oob_price] at hne
      rw [reset_oob_price]
      exact reset_oob_lt _ hne
    · intro hne hoob
      simp only [App.next_filter_preset] at hne hoob ⊢
      rw [reset_oob_price] at hne hoob
      exact reset_oob_resets _ hne hoob
  · intro s f
    constructor
    · intro hne
      simp only [App.add_filter] at hne ⊢
      rw [reset_oob_price] at hne
      rw [reset_oob_price]
      exact reset_oob_lt _ hne
    · intro hne hoob
      simp only [App.add_filter] at hne hoob ⊢
      rw [reset_oob_price] at hne hoob
      exact reset_oob_resets _ hne hoob
  · intro s f
    constructor
    · intro hne
      simp only [App.remove_filter] at hne ⊢
      rw [reset_oob_price] at hne
      rw [reset_oob_price]
      exact reset_oob_lt _ hne
    · intro hne hoob
      simp only [App.remove_filter] at hne hoob ⊢
      rw [reset_oob_price] at hne hoob
      exact reset_oob_resets _ hne hoob
  · intro s
    constructor
    · intro hne
      simp only [App.clear_all_filters] at hne ⊢
      exact List.length_pos.mpr hne
    · rfl
  · intro s c
    constructor
    · intro hne
      simp only [App.update_search_query, App.apply_search_filter] at hne ⊢
      rw [reset_oob_price] at hne
      rw [reset_oob_price]
      exact reset_oob_lt _ hne
    · intro hne hoob
      simp only [App.update_search_query, App.apply_search_filter] at hne hoob ⊢
      rw [reset_oob_price] at hne hoob
      exact reset_oob_resets _ hne hoob
  · intro s
    constructor
    · intro hne
      simp only [App.backspace_search, App.apply_search_filter] at hne ⊢
      rw [reset_oob_price] at hne
      rw [reset_oob_price]
      exact reset_oob_lt _ hne
    · intro hne hoob
      simp only [App.backspace_search, App.apply_search_filter] at hne hoob ⊢
      rw [reset_oob_price] at hne hoob
      exact reset_oob_resets _ hne hoob

/-- Witness for C7: an in-bounds selection after a concrete refresh, and
a concrete preset shrink that resets an out-of-bounds selection to 0. -/
theorem C7_selection_clamp_witness :
    (App.new.update_prices 0 [mkRec "AAA".data 1 0 0]).selected_index <
      (App.new.update_prices 0 [mkRec "AAA".data 1 0 0]).price_infos.length
    ∧ (c7_gain.set_filter_preset .TopGainers).selected_index = 0 := by
  refine ⟨(C7_selection_clamp.1 0 App.new [mkRec "AAA".data 1 0 0]).1 (by decide), ?_⟩
  exact (C7_selection_clamp.2.1 c7_gain .TopGainers).2 (by decide) (by decide)

/-- C7 counterexample: select row 1 of a 2-row list, search for a query
matching nothing, replace the snapshot with a single record while the
view is empty, then exit search mode: the recomputed visible list is the
non-empty `[CCC]` but `selected_index` is still 1 — out of bounds. -/
theorem C7_counterexample :
    c7_bad.price_infos ≠ []
    ∧ ¬(c7_bad.selected_index < c7_bad.price_infos.length) := by decide

theorem afs_filters (t : App) :
    (App.apply_filters_and_sorting t).active_filters = t.active_filters := rfl

theorem backspace_query (s : App) :
    (s.backspace_search).search_query = s.search_query.dropLast := by
  simp only [App.backspace_search, App.apply_search_filter]
  rw [reset_oob_query]
  rfl

/-- C8: when the query becomes empty the symbol-search filter is removed
from the active filter set (backspace and exit paths); an empty
`SymbolSearch` would anyway pass every record; for a non-empty query the
filter keeps exactly the records whose lower-cased symbol contains the
lower-cased query as a substring. -/
theorem C8_empty_search_cleared :
    (∀ s : App, (s.backspace_search).search_query = [] →
      ∀ q, FilterType.SymbolSearch q ∉ (s.backspace_search).active_filters)
    ∧ (∀ (s : App) (q : List Char),
        FilterType.SymbolSearch q ∉ (s.exit_search_mode).active_filters)
    ∧ (∀ l : List PriceInfo, apply_one_filter l (.SymbolSearch []) = l)
    ∧ (∀ (q : List Char) (l : List PriceInfo) (p : PriceInfo), q ≠ [] →
        (p ∈ apply_one_filter l (.SymbolSearch q) ↔
          p ∈ l ∧ List.IsInfix (q.map Char.toLower) (p.symbol.map Char.toLower))) := by
  refine ⟨?_, ?_, ?_, ?_⟩
  · intro s h q
    have hq : s.search_query.dropLast = [] := by rw [backspace_query] at h; exact h
    simp only [App.backspace_search, App.apply_search_filter]
    rw [reset_oob_filters, afs_filters]
    simp only [hq, List.isEmpty_nil, if_pos]
    simp [List.mem_filter, isSymbolSearch]
  · intro s q
    simp only [App.exit_search_mode]
    rw [afs_filters]
    simp [List.mem_filter, isSymbolSearch]
  · intro l
    rfl
  · intro q l p hq
    simp only [apply_one_filter]
    rw [if_neg (by simpa [List.isEmpty_eq_true] using hq)]
    simp [List.mem_filter]

/-- Witness for C8: after typing one character and backspacing it, no
symbol-search filter is active; and the non-empty query "USD" keeps the
record "BTCUSDT" (case-insensitive substring). -/
theorem C8_empty_search_cleared_witness :
    FilterType.SymbolSearch ['A'] ∉
      ((App.new.enter_search_mode.update_search_query 'A').backspace_search).active_filters
    ∧ mkRec "BTCUSDT".data 1 0 0 ∈
        apply_one_filter [mkRec "BTCUSDT".data 1 0 0] (.SymbolSearch "USD".data) := by
  refine ⟨C8_empty_search_cleared.1 _ (by decide) ['A'], ?_⟩
  exact (C8_empty_search_cleared.2.2.2 "USD".data [mkRec "BTCUSDT".data 1 0 0]
    (mkRec "BTCUSDT".data 1 0 0) (by decide)).mpr ⟨by decide, by decide⟩

/-- C4: on a non-empty list the `HighVolume` preset keeps exactly the
records whose volume is at least that of the `k`-th record ranked
descending by volume, `k = ⌈0.2·n⌉ = (n+4)/5` (so threshold ties are all
kept); on `[]` it is a no-op; and on the volumes
`[1000, 500, 100, 2000, 800]` only the volume-2000 record survives. -/
theorem C4_high_volume_threshold :
    (∀ l : List PriceInfo, l ≠ [] →
      ∃ r : PriceInfo,
        (List.insertionSort (fun a b : PriceInfo => b.volume ≤ a.volume) l).get?
            ((l.length + 4) / 5 - 1) = some r
        ∧ apply_preset_filters .HighVolume l =
            l.filter fun p => decide (r.volume ≤ p.volume))
    ∧ apply_preset_filters .HighVolume ([] : List PriceInfo) = []
    ∧ apply_preset_filters .HighVolume c4_list = [mkRec "D".data 0 0 2000] := by
  refine ⟨?_, by decide, by decide⟩
  intro l hne
  have hlen : ((l.length + 4) / 5 - 1) <
      (List.insertionSort (fun a b : PriceInfo => b.volume ≤ a.volume) l).length := by
    rw [List.length_insertionSort]
    have hpos : 0 < l.length := List.length_pos.mpr hne
    omega
  refine ⟨_, List.get?_eq_get hlen, ?_⟩
  simp only [apply_preset_filters]
  rw [if_neg (by simpa [List.isEmpty_eq_true] using hne)]
  rw [List.get?_eq_get hlen]
  rfl

/-- Witness for C4 at the five-record volume list. -/
theorem C4_high_volume_threshold_witness :
    ∃ r : PriceInfo,
      (List.insertionSort (fun a b : PriceInfo => b.volume ≤ a.volume) c4_list).get?
          ((c4_list.length + 4) / 5 - 1) = some r
      ∧ apply_preset_filters .HighVolume c4_list =
          c4_list.filter fun p => decide (r.volume ≤ p.volume) :=
  C4_high_volume_threshold.1 c4_list (by decide)

/-- C5: every sort mode/direction leaves the visible list totally ordered
by that mode's comparator (Symbol lexicographic, the others numeric),
the underlying sort is stable (tied pairs keep their prior relative
order), and the two concrete examples sort as the spec says. -/
theorem C5_sort_correctness :
    (∀ l, List.Pairwise (fun a b : PriceInfo => a.price ≤ b.price)
        (sort_price_infos ⟨.Price, .Ascending⟩ l))
    ∧ (∀ l, List.Pairwise (fun a b : PriceInfo => b.price ≤ a.price)
        (sort_price_infos ⟨.Price, .Descending⟩ l))
    ∧ (∀ l, List.Pairwise
        (fun a b : PriceInfo => a.price_change_percent ≤ b.price_change_percent)
        (sort_price_infos ⟨.ChangePercent, .Ascending⟩ l))
    ∧ (∀ l, List.Pairwise
        (fun a b : PriceInfo => b.price_change_percent ≤ a.price_change_percent)
        (sort_price_infos ⟨.ChangePercent, .Descending⟩ l))
    ∧ (∀ l, List.Pairwise (fun a b : PriceInfo => a.volume ≤ b.volume)
        (sort_price_infos ⟨.Volume, .Ascending⟩ l))
    ∧ (∀ l, List.Pairwise (fun a b : PriceInfo => b.volume ≤ a.volume)
        (sort_price_infos ⟨.Volume, .Descending⟩ l))
    ∧ (∀ l, List.Pairwise (fun a b : PriceInfo => lexLe a.symbol b.symbol = true)
        (sort_price_infos ⟨.Symbol, .Ascending⟩ l))
    ∧ (∀ l, List.Pairwise (fun a b : PriceInfo => lexLe b.symbol a.symbol = true)
        (sort_price_infos ⟨.Symbol, .Descending⟩ l))
    ∧ (∀ (cfg : SortConfig) (a b : PriceInfo) (l : List PriceInfo),
        sortLEb cfg a b = true → sortLEb cfg b a = true →
        [a, b].Sublist l → [a, b].Sublist (sort_price_infos cfg l))
    ∧ sort_price_infos ⟨.Price, .Ascending⟩
        [mkRec "ETHUSDT".data 3000 0 0, mkRec "BTCUSDT".data 50000 0 0] =
        [mkRec "ETHUSDT".data 3000 0 0, mkRec "BTCUSDT".data 50000 0 0]
    ∧ sort_price_infos ⟨.ChangePercent, .Descending⟩ [c5_eth, c5_btc] =
        [c5_btc, c5_eth] := by
  refine ⟨?_, ?_, ?_, ?_, ?_, ?_, ?_, ?_, ?_, by decide, by decide⟩
  · intro l
    exact (List.sorted_insertionSort (sortRel ⟨.Price, .Ascending⟩) l).imp
      fun h => by simpa [sortRel, sortLEb] using h
  · intro l
    exact (List.sorted_insertionSort (sortRel ⟨.Price, .Descending⟩) l).imp
      fun h => by simpa [sortRel, sortLEb] using h
  · intro l
    exact (List.sorted_insertionSort (sortRel ⟨.ChangePercent, .Ascending⟩) l).imp
      fun h => by simpa [sortRel, sortLEb] using h
  · intro l
    exact (List.sorted_insertionSort (sortRel ⟨.ChangePercent, .Descending⟩) l).imp
      fun h => by simpa [sortRel, sortLEb] using h
  · intro l
    exact (List.sorted_insertionSort (sortRel ⟨.Volume, .Ascending⟩) l).imp
      fun h => by simpa [sortRel, sortLEb] using h
  · intro l
    exact (List.sorted_insertionSort (sortRel ⟨.Volume, .Descending⟩) l).imp
      fun h => by simpa [sortRel, sortLEb] using h
  · intro l
    exact (List.sorted_insertionSort (sortRel ⟨.Symbol, .Ascending⟩) l).imp
      fun h => by simpa [sortRel, sortLEb] using h
  · intro l
    exact (List.sorted_insertionSort (sortRel ⟨.Symbol, .Descending⟩) l).imp
      fun h => by simpa [sortRel, sortLEb] using h
  · intro cfg a b l hab _hba hsub
    exact @List.pair_sublist_insertionSort _ (sortRel cfg) _ a b l hab hsub

/-- Witness for C5's stability clause on a concrete tied pair. -/
theorem C5_sort_correctness_witness :
    [mkRec "X".data 1 0 0, mkRec "Y".data 1 0 0].Sublist
      (sort_price_infos ⟨.Price, .Ascending⟩
        [mkRec "X".data 1 0 0, mkRec "Y".data 1 0 0]) :=
  C5_sort_correctness.2.2.2.2.2.2.2.2.1 ⟨.Price, .Ascending⟩
    (mkRec "X".data 1 0 0) (mkRec "Y".data 1 0 0)
    [mkRec "X".data 1 0 0, mkRec "Y".data 1 0 0]
    (by decide) (by decide) (List.Sublist.refl _)

theorem check_alerts_loop_fst (now : Int) (records : List PriceInfo) :
    ∀ (alerts : List PriceAlert) (recent : List (AlertMsg × Int)),
      (check_alerts_loop now records alerts recent).1 =
        alerts.map fun a => (step_alert now records a).1
  | [], _ => rfl
  | a :: rest, recent => by
    simp only [check_alerts_loop, List.map]
    rw [check_alerts_loop_fst now records rest]

theorem check_alerts_loop_snd (now : Int) (records : List PriceInfo) :
    ∀ (alerts : List PriceAlert) (recent : List (AlertMsg × Int)),
      (check_alerts_loop now records alerts recent).2 =
        alerts.foldl (fun r a =>
          match (step_alert now records a).2 with
          | some m => push_recent r (m, now)
          | none => r) recent
  | [], _ => rfl
  | a :: rest, recent => by
    simp only [check_alerts_loop, List.foldl]
    rw [check_alerts_loop_snd now records rest]

/-- C2: `check_alerts` processes each alert independently; an enabled
alert whose symbol resolves to a record satisfying its condition is
triggered (stamp `last_triggered := now`, bump `trigger_count`, emit one
recent-alert entry) iff it never triggered before or at least one hour
(3600 s) has elapsed; inside the hour the alert and the recent list are
left untouched.  Concretely, `PriceAbove 100` against price 150 triggers
at `t = 0`; re-checking at 59 min changes nothing; re-checking at 61 min
triggers again. -/
theorem C2_alert_cooldown :
    (∀ (now : Int) (s : App),
      (s.check_alerts now).alerts =
        (s.alerts.map fun a => (step_alert now s.all_price_infos a).1)
      ∧ (s.check_alerts now).recent_alerts =
          s.alerts.foldl (fun r a =>
            match (step_alert now s.all_price_infos a).2 with
            | some m => push_recent r (m, now)
            | none => r) s.recent_alerts)
    ∧ (∀ (now : Int) (records : List PriceInfo) (a : PriceAlert) (p : PriceInfo),
        a.enabled = true →
        records.find? (fun r => decide (r.symbol = a.symbol)) = some p →
        condHolds a.condition p = true →
        ((step_alert now records a =
            ({ a with last_triggered := some now, trigger_count := a.trigger_count + 1 },
             some (mk_alert_message a p)))
          ↔ (a.last_triggered = none ∨ ∃ t, a.last_triggered = some t ∧ 3600 ≤ now - t)))
    ∧ (∀ (now : Int) (records : List PriceInfo) (a : PriceAlert) (p : PriceInfo) (t : Int),
        a.enabled = true →
        records.find? (fun r => decide (r.symbol = a.symbol)) = some p →
        condHolds a.condition p = true →
        a.last_triggered = some t → now - t < 3600 →
        step_alert now records a = (a, none))
    ∧ (c2_s1.alerts = [{ c2_alert with last_triggered := some 0, trigger_count := 1 }]
       ∧ c2_s1.recent_alerts.length = 1
       ∧ c2_s1.check_alerts 3540 = c2_s1
       ∧ (c2_s1.check_alerts 3660).alerts =
           [{ c2_alert with last_triggered := some 3660, trigger_count := 2 }]
       ∧ (c2_s1.check_alerts 3660).recent_alerts.length = 2) := by
  refine ⟨?_, ?_, ?_, by decide, by decide, by decide, by decide, by decide⟩
  · intro now s
    exact ⟨check_alerts_loop_fst now s.all_price_infos s.alerts s.recent_alerts,
      check_alerts_loop_snd now s.all_price_infos s.alerts s.recent_alerts⟩
  · intro now records a p hen hfind hcond
    unfold step_alert
    rw [hen, hfind]
    simp only [Bool.not_true, Bool.false_eq_true, if_false, hcond, if_true]
    cases hlast : a.last_triggered with
    | none => simp
    | some t =>
      by_cases hcd : 3600 ≤ now - t
      · simp [hcd]
      · have hd : decide (3600 ≤ now - t) = false := decide_eq_false hcd
        simp only [hd, Bool.false_eq_true, if_false]
        constructor
        · intro hfalse
          exact absurd (congrArg Prod.snd hfalse) (by simp)
        · rintro (h | ⟨t', ht', hle⟩)
          · exact absurd h (by simp)
          · cases Option.some.inj ht'
            exact absurd hle hcd
  · intro now records a p t hen hfind hcond hlast hlt
    unfold step_alert
    rw [hen, hfind]
    simp only [Bool.not_true, Bool.false_eq_true, if_false, hcond, if_true, hlast]
    have hd : decide (3600 ≤ now - t) = false := decide_eq_false (by omega)
    simp [hd]

/-- Witness for C2: the concrete alert triggers at `now = 0` from a fresh
state, and does not re-trigger at 59 minutes. -/
theorem C2_alert_cooldown_witness :
    (step_alert 0 [mkRec "BTCUSDT".data 150 0 0] c2_alert =
      ({ c2_alert with last_triggered := some 0, trigger_count := 1 },
       some (mk_alert_message c2_alert (mkRec "BTCUSDT".data 150 0 0))))
    ∧ step_alert 3540 [mkRec "BTCUSDT".data 150 0 0]
        { c2_alert with last_triggered := some 0, trigger_count := 1 } =
        ({ c2_alert with last_triggered := some 0, trigger_count := 1 }, none) := by
  constructor
  · exact (C2_alert_cooldown.2.1 0 [mkRec "BTCUSDT".data 150 0 0] c2_alert
      (mkRec "BTCUSDT".data 150 0 0) (by decide) (by decide) (by decide)).mpr
        (Or.inl (by decide))
  · exact C2_alert_cooldown.2.2.1 3540 [mkRec "BTCUSDT".data 150 0 0]
      { c2_alert with last_triggered := some 0, trigger_count := 1 }
      (mkRec "BTCUSDT".data 150 0 0) 0 (by decide) (by decide) (by decide) (by decide)
      (by decide)

theorem fcmp_isSome (a b : F64) (ha : a ≠ .nan) (hb : b ≠ .nan) :
    (fcmp a b).isSome = true := by
  cases a <;> cases b <;> simp_all [fcmp]

theorem cmpAscP_isSome {α : Type} (key : α → F64) (x y : α) (hx : key x ≠ .nan)
    (hy : key y ≠ .nan) : (cmpAscP key x y).isSome = true := by
  unfold cmpAscP
  have h := fcmp_isSome (key x) (key y) hx hy
  cases hc : fcmp (key x) (key y)
  · rw [hc] at h; simp at h
  · simp [hc]

theorem cmpDescP_isSome {α : Type} (key : α → F64) (x y : α) (hx : key x ≠ .nan)
    (hy : key y ≠ .nan) : (cmpDescP key x y).isSome = true := by
  unfold cmpDescP
  have h := fcmp_isSome (key y) (key x) hy hx
  cases hc : fcmp (key y) (key x)
  · rw [hc] at h; simp at h
  · simp [hc]

theorem orderedInsertP_some {α : Type} (cmp : α → α → Option Bool) (a : α) :
    ∀ l : List α, (∀ b ∈ l, (cmp a b).isSome = true) →
      ∃ r, orderedInsertP cmp a l = some r ∧ ∀ x ∈ r, x = a ∨ x ∈ l
  | [], _ => ⟨[a], rfl, by simp⟩
  | b :: l, h => by
    have hb := h b (List.mem_cons_self b l)
    cases hcb : cmp a b with
    | none => rw [hcb] at hb; simp at hb
    | some v =>
      cases v with
      | true =>
        refine ⟨a :: b :: l, by simp [orderedInsertP, hcb], ?_⟩
        intro x hx
        rcases List.mem_cons.mp hx with h1 | h1
        · exact Or.inl h1
        · exact Or.inr h1
      | false =>
        obtain ⟨r, hr, hmem⟩ := orderedInsertP_some cmp a l
          fun b' hb' => h b' (List.mem_cons_of_mem _ hb')
        refine ⟨b :: r, by simp [orderedInsertP, hcb, hr], ?_⟩
        intro x hx
        rcases List.mem_cons.mp hx with h1 | h1
        · exact Or.inr (by simp [h1])
        · rcases hmem x h1 with h2 | h2
          · exact Or.inl h2
          · exact Or.inr (List.mem_cons_of_mem _ h2)

theorem insertionSortP_some {α : Type} (cmp : α → α → Option Bool) :
    ∀ l : List α, (∀ x ∈ l, ∀ y ∈ l, (cmp x y).isSome = true) →
      ∃ r, insertionSortP cmp l = some r ∧ ∀ x ∈ r, x ∈ l
  | [], _ => ⟨[], rfl, by simp⟩
  | a :: l, h => by
    obtain ⟨r, hr, hmem⟩ := insertionSortP_some cmp l
      fun x hx y hy => h x (List.mem_cons_of_mem _ hx) y (List.mem_cons_of_mem _ hy)
    obtain ⟨r2, hr2, hmem2⟩ := orderedInsertP_some cmp a r
      fun b hb => h a (List.mem_cons_self a l) b (List.mem_cons_of_mem _ (hmem b hb))
    refine ⟨r2, by simp [insertionSortP, hr, hr2], ?_⟩
    intro x hx
    rcases hmem2 x hx with h1 | h1
    · simp [h1]
    · exact List.mem_cons_of_mem _ (hmem x h1)

theorem apply_preset_filtersP_some (preset : FilterPreset) (l : List FlInfo)
    (h : ∀ p ∈ l, noNaN p) :
    ∃ l1, apply_preset_filtersP preset l = some l1 ∧ ∀ p ∈ l1, p ∈ l := by
  cases preset with
  | All => exact ⟨l, rfl, fun p hp => hp⟩
  | TopGainers => exact ⟨_, rfl, fun p hp => (List.mem_filter.mp hp).1⟩
  | TopLosers => exact ⟨_, rfl, fun p hp => (List.mem_filter.mp hp).1⟩
  | Volatile => exact ⟨_, rfl, fun p hp => (List.mem_filter.mp hp).1⟩
  | Stable => exact ⟨_, rfl, fun p hp => (List.mem_filter.mp hp).1⟩
  | HighVolume =>
    by_cases hemp : l.isEmpty
    · exact ⟨l, by simp [apply_preset_filtersP, hemp], fun p hp => hp⟩
    · have hcmp : ∀ x ∈ l, ∀ y ∈ l, (cmpDescP FlInfo.volume x y).isSome = true :=
        fun x hx y hy => cmpDescP_isSome _ x y (h x hx).2.2 (h y hy).2.2
      obtain ⟨r, hr, _⟩ := insertionSortP_some (cmpDescP FlInfo.volume) l hcmp
      refine ⟨List.filter
          (fun p => fle ((Option.map FlInfo.volume (r.get? ((l.length + 4) / 5 - 1))).getD
            (F64.num 0)) p.volume) l, ?_, ?_⟩
      · simp only [apply_preset_filtersP, hemp, Bool.false_eq_true, if_false, hr]
      · exact fun p hp => (List.mem_filter.mp hp).1

theorem apply_one_filterP_subset (l : List FlInfo) (f : FilterType) :
    ∀ p ∈ apply_one_filterP l f, p ∈ l := by
  intro p hp
  cases f with
  | PriceRange mn mx => exact (List.mem_filter.mp hp).1
  | ChangePercentRange mn mx => exact (List.mem_filter.mp hp).1
  | VolumeRange mn mx => exact (List.mem_filter.mp hp).1
  | SymbolSearch q =>
    revert hp
    simp only [apply_one_filterP]
    split
    · exact id
    · exact fun hp => (List.mem_filter.mp hp).1

theorem apply_custom_filtersP_subset (filters : List FilterType) :
    ∀ l : List FlInfo, ∀ p ∈ apply_custom_filtersP filters l, p ∈ l := by
  induction filters with
  | nil => exact fun l p hp => hp
  | cons f fs ih =>
    intro l p hp
    exact apply_one_filterP_subset l f p (ih (apply_one_filterP l f) p hp)

theorem sort_price_infosP_some (cfg : SortConfig) (l : List FlInfo)
    (h : ∀ p ∈ l, noNaN p) : (sort_price_infosP cfg l).isSome = true := by
  obtain ⟨mode, dir⟩ := cfg
  cases mode <;> cases dir
  · simp [sort_price_infosP]
  · simp [sort_price_infosP]
  · obtain ⟨r, hr, _⟩ := insertionSortP_some (cmpAscP FlInfo.price) l
      fun x hx y hy => cmpAscP_isSome _ x y (h x hx).1 (h y hy).1
    simp [sort_price_infosP, hr]
  · obtain ⟨r, hr, _⟩ := insertionSortP_some (cmpDescP FlInfo.price) l
      fun x hx y hy => cmpDescP_isSome _ x y (h x hx).1 (h y hy).1
    simp [sort_price_infosP, hr]
  · obtain ⟨r, hr, _⟩ := insertionSortP_some (cmpAscP FlInfo.price_change_percent) l
      fun x hx y hy => cmpAscP_isSome _ x y (h x hx).2.1 (h y hy).2.1
    simp [sort_price_infosP, hr]
  · obtain ⟨r, hr, _⟩ := insertionSortP_some (cmpDescP FlInfo.price_change_percent) l
      fun x hx y hy => cmpDescP_isSome _ x y (h x hx).2.1 (h y hy).2.1
    simp [sort_price_infosP, hr]
  · obtain ⟨r, hr, _⟩ := insertionSortP_some (cmpAscP FlInfo.volume) l
      fun x hx y hy => cmpAscP_isSome _ x y (h x hx).2.2 (h y hy).2.2
    simp [sort_price_infosP, hr]
  · obtain ⟨r, hr, _⟩ := insertionSortP_some (cmpDescP FlInfo.volume) l
      fun x hx y hy => cmpDescP_isSome _ x y (h x hx).2.2 (h y hy).2.2
    simp [sort_price_infosP, hr]

/-- C6: if no record field is NaN, every `partial_cmp` the pipeline
performs succeeds — also on exactly equal values, where it returns
`Equal` — and the whole filter/sort pipeline returns a result instead of
failing. -/
theorem C6_no_nan_total_pipeline :
    (∀ (all : List FlInfo) (preset : FilterPreset) (filters : List FilterType)
        (cfg : SortConfig), (∀ p ∈ all, noNaN p) →
        (pipelineP all preset filters cfg).isSome = true)
    ∧ (∀ q : ℚ, fcmp (.num q) (.num q) = some Ordering.eq) := by
  constructor
  · intro all preset filters cfg h
    obtain ⟨l1, hl1, hsub⟩ := apply_preset_filtersP_some preset all h
    have h1 : ∀ p ∈ l1, noNaN p := fun p hp => h p (hsub p hp)
    have h2 : ∀ p ∈ apply_custom_filtersP filters l1, noNaN p :=
      fun p hp => h1 p (apply_custom_filtersP_subset filters l1 p hp)
    have hs := sort_price_infosP_some cfg (apply_custom_filtersP filters l1) h2
    simp only [pipelineP, hl1]
    exact hs
  · intro q
    simp [fcmp, compare_eq_iff_eq]

/-- Witness for C6 on a one-record snapshot through the HighVolume preset
and a price sort. -/
theorem C6_no_nan_total_pipeline_witness :
    (pipelineP [⟨"BTCUSDT".data, .num 150, .num 2, .num 3, .num 0, .num 0, .num 0⟩]
      .HighVolume [] ⟨.Price, .Ascending⟩).isSome = true :=
  C6_no_nan_total_pipeline.1 _ .HighVolume [] ⟨.Price, .Ascending⟩ (by decide)

-- sanity: HighVolume concrete behaviour matches the source
example :
    apply_preset_filters .HighVolume
      [⟨"A".data, 0, 0, 1000, 0, 0, 0⟩, ⟨"B".data, 0, 0, 500, 0, 0, 0⟩,
       ⟨"C".data, 0, 0, 100, 0, 0, 0⟩, ⟨"D".data, 0, 0, 2000, 0, 0, 0⟩,
       ⟨"E".data, 0, 0, 800, 0, 0, 0⟩] =
      [⟨"D".data, 0, 0, 2000, 0, 0, 0⟩] := by decide

example :
    sort_price_infos ⟨.Price, .Ascending⟩
      [⟨"ETHUSDT".data, 3000, 0, 0, 0, 0, 0⟩, ⟨"BTCUSDT".data, 50000, 0, 0, 0, 0, 0⟩] =
      [⟨"ETHUSDT".data, 3000, 0, 0, 0, 0, 0⟩, ⟨"BTCUSDT".data, 50000, 0, 0, 0, 0, 0⟩] := by
  decide
